import Mathlib

/-!
Verification of the gateway client protocol layer (GatewayClient.ts).

The embedding below models the mutable state of the GatewayClient class
(fields ws, pending, reconnectTimer), its transport callbacks
(onmessage, onclose), the timer callback installed by scheduleReconnect,
and the public operations connect, disconnect and request.

Observable effects (resolving or rejecting a pending caller, invoking the
event handler, notifying the status observer, sending a frame, arming the
reconnect timer, closing the transport) are represented as an explicit
list of Act values returned alongside the new state.  Each pending
entry in the Map is tagged with an opaque caller token (a Nat) standing
for the resolve/reject closure pair of the underlying Promise, so that
which caller an effect reaches is visible in the Act.

The random request id produced by Math.random().toString(36).substring(2)
carries no uniqueness guarantee, so id generation is made an explicit
input of the request model.
-/

/-- JSON-like values: payloads, params and serialized frame fields. -/
inductive JValue where
  | null : JValue
  | bool (b : Bool) : JValue
  | num (n : Int) : JValue
  | str (s : String) : JValue
  | obj (fields : List (String × JValue)) : JValue
deriving Repr

/-- Structured server error carried by a response frame
(GatewayResponseFrame.error of shape code/message/details). -/
structure GatewayError where
  code : String
  message : String
  details : JValue
deriving Repr

/-- Inbound and outbound frames, after the discriminator dispatch on the
string field named type, as declared by the source frame types
(GatewayEventFrame, GatewayResponseFrame) and built by request. -/
inductive Frame where
  | req (id : String) (method : String) (params : JValue) : Frame
  | res (id : String) (ok : Bool) (payload : JValue) (error : GatewayError) : Frame
  | event (name : String) (payload : JValue) : Frame
deriving Repr

/-- Serialized field list of the structured error object. -/
def GatewayError.fields (e : GatewayError) : List (String × JValue) :=
  [("code", JValue.str e.code), ("message", JValue.str e.message), ("details", e.details)]

/-- The JSON object shape of each frame, as an ordered field list.  The
req case is the object literal built by request on line 90 of the source;
the res and event cases follow the declared TS frame types, whose
discriminator field is likewise named type. -/
def frameFields : Frame → List (String × JValue)
  | Frame.req id method params =>
      [("type", JValue.str "req"), ("id", JValue.str id),
       ("method", JValue.str method), ("params", params)]
  | Frame.res id ok payload error =>
      [("type", JValue.str "res"), ("id", JValue.str id), ("ok", JValue.bool ok),
       ("payload", payload), ("error", JValue.obj error.fields)]
  | Frame.event name payload =>
      [("type", JValue.str "event"), ("event", JValue.str name), ("payload", payload)]

/-- Field access on a serialized frame object. -/
def lookupField (o : List (String × JValue)) (k : String) : Option JValue :=
  match o with
  | [] => none
  | (k1, v) :: rest => if k1 = k then some v else lookupField rest k

/-- JS Map.get on the pending table (keys are request ids, values are
caller tokens standing for the resolve/reject pair). -/
def mapGet (m : List (String × Nat)) (k : String) : Option Nat :=
  match m with
  | [] => none
  | (k1, v) :: rest => if k1 = k then some v else mapGet rest k

/-- JS Map.set: an existing key keeps its position and has its value
replaced; a new key is appended in insertion order. -/
def mapSet (m : List (String × Nat)) (k : String) (v : Nat) : List (String × Nat) :=
  match m with
  | [] => [(k, v)]
  | (k1, v1) :: rest => if k1 = k then (k, v) :: rest else (k1, v1) :: mapSet rest k v

/-- JS Map.delete (keys are unique, so removing the first hit suffices). -/
def mapDelete (m : List (String × Nat)) (k : String) : List (String × Nat) :=
  match m with
  | [] => []
  | (k1, v1) :: rest => if k1 = k then rest else (k1, v1) :: mapDelete rest k

/-- readyState values of the underlying WebSocket. -/
inductive WsReadyState where
  | connecting : WsReadyState
  | opened : WsReadyState
  | closing : WsReadyState
  | closed : WsReadyState
deriving DecidableEq, Repr

/-- The mutable fields of the GatewayClient instance: ws (null or a
socket with its readyState), the pending Map, and whether a reconnect
timer handle is currently stored (non-null). -/
structure ClientState where
  ws : Option WsReadyState
  pending : List (String × Nat)
  reconnectTimer : Bool
deriving DecidableEq, Repr

/-- Observable effects emitted while an operation or callback runs. -/
inductive Act where
  | statusChange (connected : Bool) : Act
  | resolveCaller (caller : Nat) (payload : JValue) : Act
  | rejectCaller (caller : Nat) (error : GatewayError) : Act
  | deliverEvent (name : String) (payload : JValue) : Act
  | sendFrame (fields : List (String × JValue)) : Act
  | armReconnectTimer (delayMs : Nat) : Act
  | closeTransport : Act
deriving Repr

/-- The ws.onmessage handler (source lines 38-50): a res frame settles the
matching pending entry if any (delete, then resolve on ok, reject with the
server error otherwise; no match is a no-op), an event frame is handed to
the onEvent callback, anything else falls through. -/
def handleMessage (pending : List (String × Nat)) (frame : Frame) :
    List (String × Nat) × List Act :=
  match frame with
  | Frame.res id ok payload error =>
      match mapGet pending id with
      | some p =>
          let pending1 := mapDelete pending id
          if ok then (pending1, [Act.resolveCaller p payload])
          else (pending1, [Act.rejectCaller p error])
      | none => (pending, [])
  | Frame.event name payload => (pending, [Act.deliverEvent name payload])
  | Frame.req _ _ _ => (pending, [])

/-- A sequence of inbound frames processed in arrival order by onmessage. -/
def handleMessages (pending : List (String × Nat)) :
    List Frame → List (String × Nat) × List Act
  | [] => (pending, [])
  | f :: fs =>
      let r1 := handleMessage pending f
      let r2 := handleMessages r1.1 fs
      (r2.1, r1.2 ++ r2.2)

/-- The guard of request (source line 86): the transport counts as open
when ws is non-null and its readyState is OPEN. -/
def wsIsOpen : Option WsReadyState → Bool
  | some WsReadyState.opened => true
  | _ => false

/-- Result of a request call: either the synchronous throw of
new Error with the not-connected message, or acceptance (promise
created, pending entry recorded, frame sent). -/
inductive ReqOutcome where
  | threw (msg : String) : ReqOutcome
  | accepted : ReqOutcome
deriving Repr

/-- request(method, params), source lines 85-96.  The generated id (line
89, Math.random based, no uniqueness check) is an explicit input, as is
the caller token for the new promise.  When the guard fails the method
throws before touching any state; otherwise it stores the caller pair in
pending under the id and sends the serialized req frame. -/
def request (st : ClientState) (caller : Nat) (genId : String)
    (method : String) (params : JValue) : ClientState × ReqOutcome × List Act :=
  if wsIsOpen st.ws = false then
    (st, ReqOutcome.threw "Not connected to gateway", [])
  else
    ({ st with pending := mapSet st.pending genId caller },
     ReqOutcome.accepted,
     [Act.sendFrame (frameFields (Frame.req genId method params))])

/-- scheduleReconnect (source lines 62-68): a stored timer handle makes it
return at once; otherwise it arms one setTimeout for 3000 ms and stores
the handle. -/
def scheduleReconnect (st : ClientState) : ClientState × List Act :=
  if st.reconnectTimer then (st, [])
  else ({ st with reconnectTimer := true }, [Act.armReconnectTimer 3000])

/-- The ws.onclose handler (source lines 52-55): notify the status
observer with false, then scheduleReconnect.  It does not touch pending. -/
def handleClose (st : ClientState) : ClientState × List Act :=
  let r := scheduleReconnect st
  (r.1, Act.statusChange false :: r.2)

/-- n transport-close signals delivered back to back (the reconnect timer
not having fired in between). -/
def handleCloseMany (n : Nat) (st : ClientState) : ClientState × List Act :=
  match n with
  | 0 => (st, [])
  | Nat.succ m =>
      let r1 := handleClose st
      let r2 := handleCloseMany m r1.1
      (r2.1, r1.2 ++ r2.2)

/-- connect() (source lines 29-60): store a fresh WebSocket (readyState
CONNECTING) in ws and install its callbacks.  No other field is read or
written, nothing is sent, and the previous socket is not closed. -/
def connect (st : ClientState) : ClientState × List Act :=
  ({ st with ws := some WsReadyState.connecting }, [])

/-- The setTimeout callback armed by scheduleReconnect (source lines
64-67): clear the stored handle, then connect(). -/
def reconnectTimerFire (st : ClientState) : ClientState × List Act :=
  connect { st with reconnectTimer := false }

/-- disconnect() (source lines 98-100): ws?.close().  A non-null socket
moves to readyState CLOSING and the transport close is requested; the
close event it produces is delivered later to handleClose. -/
def disconnect (st : ClientState) : ClientState × List Act :=
  match st.ws with
  | none => (st, [])
  | some _ => ({ st with ws := some WsReadyState.closing }, [Act.closeTransport])

/-- Number of armReconnectTimer actions in a list. -/
def countArmTimer (acts : List Act) : Nat :=
  match acts with
  | [] => 0
  | Act.armReconnectTimer _ :: rest => Nat.succ (countArmTimer rest)
  | _ :: rest => countArmTimer rest

/-! ### Lemmas about the pending Map operations -/

theorem mapGet_mapDelete_ne (m : List (String × Nat)) (k k' : String) (h : k' ≠ k) :
    mapGet (mapDelete m k) k' = mapGet m k' := by
  induction m with
  | nil => rfl
  | cons hd tl ih =>
      obtain ⟨k1, v1⟩ := hd
      by_cases hk : k1 = k
      · subst hk
        have hne : ¬ (k1 = k') := fun hc => h hc.symm
        simp [mapDelete, mapGet, hne]
      · simp [mapDelete, hk, mapGet]
        by_cases hk' : k1 = k'
        · simp [hk']
        · simp [hk', ih]

theorem mapSet_absent_append (m : List (String × Nat)) (k : String) (v : Nat)
    (h : mapGet m k = none) : mapSet m k v = m ++ [(k, v)] := by
  induction m with
  | nil => rfl
  | cons hd tl ih =>
      obtain ⟨k1, v1⟩ := hd
      by_cases hk : k1 = k
      · simp [mapGet, hk] at h
      · simp [mapGet, hk] at h
        simp [mapSet, hk, ih h]

/-! ### Claim theorems -/

/-- C1: the claim says that on transport close every outstanding pending
entry is rejected with a connection-lost error and the table is empty
afterwards.  The code's onclose handler does neither: for every client
state it leaves the pending table exactly as it was and emits only the
status notification plus, at most, the timer arming — never a
rejectCaller action.  Evaluated generally, this refutes the claimed
drain; the spec states the intended behaviour, the code omits it. -/
theorem onclose_leaves_pending_untouched :
    ∀ st : ClientState,
      (handleClose st).1.pending = st.pending ∧
      (handleClose st).2 =
        (if st.reconnectTimer then [Act.statusChange false]
         else [Act.statusChange false, Act.armReconnectTimer 3000]) := by
  intro st
  by_cases h : st.reconnectTimer
  · simp [handleClose, scheduleReconnect, h]
  · simp [handleClose, scheduleReconnect, h]

/-- C2: the claim says that after a caller-initiated disconnect() no
automatic reconnection is ever scheduled or executed.  In the code,
disconnect() merely calls ws.close(); the resulting close event runs the
onclose handler, which arms the 3000 ms reconnect timer, and the timer
callback then executes connect() again.  The chain below evaluates the
code on a connected client with no timer pending and shows the reconnect
being scheduled and executed with no further caller involvement. -/
theorem disconnect_then_close_schedules_reconnect :
    disconnect (ClientState.mk (some WsReadyState.opened) [] false) =
      (ClientState.mk (some WsReadyState.closing) [] false, [Act.closeTransport]) ∧
    handleClose (ClientState.mk (some WsReadyState.closing) [] false) =
      (ClientState.mk (some WsReadyState.closing) [] true,
       [Act.statusChange false, Act.armReconnectTimer 3000]) ∧
    reconnectTimerFire (ClientState.mk (some WsReadyState.closing) [] true) =
      (ClientState.mk (some WsReadyState.connecting) [] false, []) :=
  ⟨rfl, rfl, rfl⟩

/-- C3: a response with ok true resolves the matching caller with the
frame's payload, ok false rejects it with the server error, and matching
is purely by id: two outstanding requests with distinct ids receive each
its own outcome whichever order the two responses arrive in. -/
theorem responses_matched_by_id (pending : List (String × Nat))
    (ida idb : String) (ca cb : Nat) (oka okb : Bool) (pla plb : JValue)
    (era erb : GatewayError) (hne : ida ≠ idb)
    (ha : mapGet pending ida = some ca) (hb : mapGet pending idb = some cb) :
    (handleMessages pending
        [Frame.res ida oka pla era, Frame.res idb okb plb erb]).2 =
      [if oka then Act.resolveCaller ca pla else Act.rejectCaller ca era,
       if okb then Act.resolveCaller cb plb else Act.rejectCaller cb erb] ∧
    (handleMessages pending
        [Frame.res idb okb plb erb, Frame.res ida oka pla era]).2 =
      [if okb then Act.resolveCaller cb plb else Act.rejectCaller cb erb,
       if oka then Act.resolveCaller ca pla else Act.rejectCaller ca era] := by
  have hb1 : mapGet (mapDelete pending ida) idb = some cb := by
    rw [mapGet_mapDelete_ne pending ida idb (fun hc => hne hc.symm), hb]
  have ha1 : mapGet (mapDelete pending idb) ida = some ca := by
    rw [mapGet_mapDelete_ne pending idb ida hne, ha]
  constructor
  · cases oka <;> cases okb <;>
      simp [handleMessages, handleMessage, ha, hb1]
  · cases oka <;> cases okb <;>
      simp [handleMessages, handleMessage, hb, ha1]

/-- C3 witness: two pending requests under ids a and b; the response for
a (ok) and the response for b (error) settle caller 1 with payload pa and
caller 2 with the error, in both arrival orders. -/
theorem responses_matched_by_id_witness :
    ("a" : String) ≠ "b" ∧
    mapGet [("a", 1), ("b", 2)] "a" = some 1 ∧
    mapGet [("a", 1), ("b", 2)] "b" = some 2 ∧
    ((handleMessages [("a", 1), ("b", 2)]
        [Frame.res "a" true (JValue.str "pa") (GatewayError.mk "E" "boom" JValue.null),
         Frame.res "b" false (JValue.str "pb") (GatewayError.mk "E" "boom" JValue.null)]).2 =
      [Act.resolveCaller 1 (JValue.str "pa"),
       Act.rejectCaller 2 (GatewayError.mk "E" "boom" JValue.null)] ∧
    (handleMessages [("a", 1), ("b", 2)]
        [Frame.res "b" false (JValue.str "pb") (GatewayError.mk "E" "boom" JValue.null),
         Frame.res "a" true (JValue.str "pa") (GatewayError.mk "E" "boom" JValue.null)]).2 =
      [Act.rejectCaller 2 (GatewayError.mk "E" "boom" JValue.null),
       Act.resolveCaller 1 (JValue.str "pa")]) :=
  ⟨by decide, rfl, rfl,
   responses_matched_by_id [("a", 1), ("b", 2)] "a" "b" 1 2 true false
     (JValue.str "pa") (JValue.str "pb")
     (GatewayError.mk "E" "boom" JValue.null) (GatewayError.mk "E" "boom" JValue.null)
     (by decide) rfl rfl⟩

/-- C4: a request made while the transport is not open throws the
not-connected error synchronously and performs no side effect at all: the
state (including the pending table) is returned unchanged and no action
(in particular no frame send) is emitted. -/
theorem request_not_open_noop (st : ClientState) (caller : Nat)
    (genId method : String) (params : JValue) (h : wsIsOpen st.ws = false) :
    request st caller genId method params =
      (st, ReqOutcome.threw "Not connected to gateway", []) := by
  simp [request, h]

/-- C4 witness: on a client whose ws field is null the request throws and
leaves everything untouched. -/
theorem request_not_open_noop_witness :
    wsIsOpen (ClientState.mk none [("a", 1)] false).ws = false ∧
    request (ClientState.mk none [("a", 1)] false) 2 "i" "m" JValue.null =
      (ClientState.mk none [("a", 1)] false,
       ReqOutcome.threw "Not connected to gateway", []) :=
  ⟨rfl, request_not_open_noop (ClientState.mk none [("a", 1)] false) 2 "i" "m"
    JValue.null rfl⟩

/-- C5: a response frame whose id matches no pending entry is a silent
no-op of the onmessage handler: the pending table is returned unchanged
and no action is emitted (nothing resolved or rejected, the event handler
not invoked, no throw — the model is total). -/
theorem response_unmatched_noop (pending : List (String × Nat)) (id : String)
    (ok : Bool) (payload : JValue) (error : GatewayError)
    (h : mapGet pending id = none) :
    handleMessage pending (Frame.res id ok payload error) = (pending, []) := by
  simp [handleMessage, h]

/-- C5 witness: a response for unknown id b against a table holding only
id a changes nothing. -/
theorem response_unmatched_noop_witness :
    mapGet [("a", 1)] "b" = none ∧
    handleMessage [("a", 1)]
        (Frame.res "b" true JValue.null (GatewayError.mk "E" "x" JValue.null)) =
      ([("a", 1)], []) :=
  ⟨rfl, response_unmatched_noop [("a", 1)] "b" true JValue.null
    (GatewayError.mk "E" "x" JValue.null) rfl⟩

/-- C6: scheduling is idempotent while a timer is stored.  Across any
burst of n back-to-back close signals (the timer never firing in
between), the number of armReconnectTimer actions is exactly one when no
timer was stored and the burst is non-empty, and zero otherwise; the
timer flag afterwards is the disjunction; and a single close arms the
timer for exactly 3000 ms when none is stored and does nothing more than
notify the observer when one is. -/
theorem reconnect_timer_at_most_one (st : ClientState) (n : Nat) :
    countArmTimer (handleCloseMany n st).2 =
      (if st.reconnectTimer then 0 else min n 1) ∧
    (handleCloseMany n st).1 =
      { st with reconnectTimer := st.reconnectTimer || !(n == 0) } ∧
    handleClose { st with reconnectTimer := false } =
      ({ st with reconnectTimer := true },
       [Act.statusChange false, Act.armReconnectTimer 3000]) ∧
    handleClose { st with reconnectTimer := true } =
      ({ st with reconnectTimer := true }, [Act.statusChange false]) := by
  refine ⟨?_, ?_, ?_, ?_⟩
  · induction n generalizing st with
    | zero => simp [handleCloseMany, countArmTimer]
    | succ m ih =>
        by_cases h : st.reconnectTimer
        · simp [handleCloseMany, handleClose, scheduleReconnect, h,
            countArmTimer, ih, h]
        · simp [handleCloseMany, handleClose, scheduleReconnect, h,
            countArmTimer]
          have := ih { st with reconnectTimer := true }
          simp at this
          simp [this]
  · induction n generalizing st with
    | zero => simp [handleCloseMany]
    | succ m ih =>
        by_cases h : st.reconnectTimer
        · have hst : ({ st with reconnectTimer := true } : ClientState) = st := by
            cases st
            simp at h
            simp [h]
          simp [handleCloseMany, handleClose, scheduleReconnect, h, ih, hst, h]
        · have := ih { st with reconnectTimer := true }
          simp [handleCloseMany, handleClose, scheduleReconnect, h, this]
  · simp [handleClose, scheduleReconnect]
  · simp [handleClose, scheduleReconnect]

/-- C6 witness: three close signals in a row against a client with no
stored timer arm the timer exactly once. -/
theorem reconnect_timer_at_most_one_witness :
    countArmTimer
        (handleCloseMany 3 (ClientState.mk (some WsReadyState.closed) [] false)).2 = 1 ∧
    (handleCloseMany 3 (ClientState.mk (some WsReadyState.closed) [] false)).1 =
      ClientState.mk (some WsReadyState.closed) [] true :=
  ⟨(reconnect_timer_at_most_one (ClientState.mk (some WsReadyState.closed) [] false) 3).1,
   (reconnect_timer_at_most_one (ClientState.mk (some WsReadyState.closed) [] false) 3).2.1⟩

/-- C7 counterexample: the claim says every call to request() generates an
id distinct from all outstanding ids, so that recording never overwrites
an existing entry.  The generated id (Math.random based) carries no
uniqueness guarantee and the code performs no check: a call whose
generated id i equals an outstanding one replaces that entry in the
pending Map, displacing caller 1. -/
theorem request_id_collision_overwrites :
    (request (ClientState.mk (some WsReadyState.opened) [("i", 1)] false)
        2 "i" "m" JValue.null).1.pending = [("i", 2)] ∧
    mapGet (request (ClientState.mk (some WsReadyState.opened) [("i", 1)] false)
        2 "i" "m" JValue.null).1.pending "i" ≠ some 1 :=
  ⟨rfl, by decide⟩

/-- C7 amended: id freshness is not enforced by request(); whenever the
generated id happens to be absent from the pending table (the intended
and overwhelmingly likely case), the new PendingRequest is appended
without overwriting or displacing any existing entry, the call is
accepted and exactly the serialized req frame is sent. -/
theorem request_fresh_id_appends (st : ClientState) (caller : Nat)
    (genId method : String) (params : JValue)
    (hopen : wsIsOpen st.ws = true) (hfresh : mapGet st.pending genId = none) :
    (request st caller genId method params).1.pending =
      st.pending ++ [(genId, caller)] ∧
    (request st caller genId method params).2 =
      (ReqOutcome.accepted,
       [Act.sendFrame (frameFields (Frame.req genId method params))]) := by
  constructor
  · simp [request, hopen, mapSet_absent_append st.pending genId caller hfresh]
  · simp [request, hopen]

/-- C7 witness: with id a outstanding and fresh id b generated, the entry
for a is preserved and the new entry appended. -/
theorem request_fresh_id_appends_witness :
    wsIsOpen (ClientState.mk (some WsReadyState.opened) [("a", 1)] false).ws = true ∧
    mapGet (ClientState.mk (some WsReadyState.opened) [("a", 1)] false).pending "b" = none ∧
    (request (ClientState.mk (some WsReadyState.opened) [("a", 1)] false)
        2 "b" "m" JValue.null).1.pending = [("a", 1)] ++ [("b", 2)] :=
  ⟨rfl, rfl,
   (request_fresh_id_appends (ClientState.mk (some WsReadyState.opened) [("a", 1)] false)
     2 "b" "m" JValue.null rfl rfl).1⟩

/-- C8 counterexample: the claim says every frame carries a discriminator
field named kind.  No serialized frame of this client has a field named
kind — the discriminator field is named type, as the frame the request
method builds and the declared frame types show. -/
theorem frames_have_no_kind_field :
    lookupField (frameFields (Frame.req "i" "m" JValue.null)) "kind" = none ∧
    lookupField (frameFields
        (Frame.res "i" true JValue.null (GatewayError.mk "c" "m" JValue.null))) "kind" = none ∧
    lookupField (frameFields (Frame.event "e" JValue.null)) "kind" = none := by
  refine ⟨?_, ?_, ?_⟩ <;> rfl

/-- C8 amended: the discriminator field is named type, with value req for
requests, res for responses and event for events; the frame sent by
request() has exactly the shape of the object type req, id, method,
params, in that field order. -/
theorem frame_discriminator_named_type (st : ClientState) (caller : Nat)
    (id method name : String) (params payload : JValue) (ok : Bool)
    (e : GatewayError) (hopen : wsIsOpen st.ws = true) :
    frameFields (Frame.req id method params) =
      [("type", JValue.str "req"), ("id", JValue.str id),
       ("method", JValue.str method), ("params", params)] ∧
    lookupField (frameFields (Frame.req id method params)) "type" =
      some (JValue.str "req") ∧
    lookupField (frameFields (Frame.res id ok payload e)) "type" =
      some (JValue.str "res") ∧
    lookupField (frameFields (Frame.event name payload)) "type" =
      some (JValue.str "event") ∧
    (request st caller id method params).2.2 =
      [Act.sendFrame
        [("type", JValue.str "req"), ("id", JValue.str id),
         ("method", JValue.str method), ("params", params)]] := by
  refine ⟨rfl, rfl, rfl, rfl, ?_⟩
  simp [request, hopen, frameFields]

/-- C8 witness: a concrete request on an open transport sends exactly the
req-shaped frame with the type discriminator. -/
theorem frame_discriminator_named_type_witness :
    wsIsOpen (ClientState.mk (some WsReadyState.opened) [] false).ws = true ∧
    (request (ClientState.mk (some WsReadyState.opened) [] false)
        1 "i" "m" JValue.null).2.2 =
      [Act.sendFrame
        [("type", JValue.str "req"), ("id", JValue.str "i"),
         ("method", JValue.str "m"), ("params", JValue.null)]] :=
  ⟨rfl,
   (frame_discriminator_named_type (ClientState.mk (some WsReadyState.opened) [] false)
     1 "i" "m" "e" JValue.null JValue.null true
     (GatewayError.mk "c" "m" JValue.null) rfl).2.2.2.2⟩

/-- C9: every inbound event frame is handed synchronously to the single
registered event handler with exactly the frame's name and payload; a
sequence of event frames produces one handler invocation per frame in
arrival order, and the pending table (however many requests are
outstanding) is untouched. -/
theorem events_delivered_in_order :
    ∀ (pending : List (String × Nat)) (evs : List (String × JValue)),
      handleMessages pending (evs.map fun e => Frame.event e.1 e.2) =
        (pending, evs.map fun e => Act.deliverEvent e.1 e.2) := by
  intro pending evs
  induction evs generalizing pending with
  | nil => rfl
  | cons hd tl ih => simp [handleMessages, handleMessage, ih]

/-- C10: connect() installs a fresh transport handle (readyState
CONNECTING) and nothing else: the pending table and the reconnect-timer
flag are unchanged, no action is emitted (in particular the previous
socket is not closed), and a response frame arriving on the new transport
settles against the pre-existing pending table exactly as it would have
before the reconnect. -/
theorem connect_changes_only_transport :
    ∀ st : ClientState,
      (connect st).1.pending = st.pending ∧
      (connect st).1.reconnectTimer = st.reconnectTimer ∧
      (connect st).1.ws = some WsReadyState.connecting ∧
      (connect st).2 = [] ∧
      ∀ frame : Frame,
        handleMessage (connect st).1.pending frame = handleMessage st.pending frame :=
  fun _ => ⟨rfl, rfl, rfl, rfl, fun _ => rfl⟩
